import Mathlib

/-!
Shallow embedding of the Transcripto repository (a Flask audio-to-notes app):
`gemini_transcriber.py`, `gemini_notes_generator.py` and `main.py`.
External effects (the remote file API, the clock, the filesystem, the
generation endpoint) are injected as explicit environment values; each
embedded function returns, besides its Python return value, an effect trace
(upload / status-poll / generate / delete call counts, sleep count, files
left on disk) so that the resource-handling claims can be stated.
-/

namespace Transcripto

/-! ### String primitives

Structural (kernel-computable) counterparts of the Python string
methods the sources use, working on the character list of a `String`. -/

/-- Python `str.lower` on the ASCII range. -/
def toLowerStr (s : String) : String := String.mk (s.data.map Char.toLower)

/-- Python `str.startswith`. -/
def startsWithStr (s pre : String) : Bool := pre.data.isPrefixOf s.data

/-- Python `str.endswith`. -/
def endsWithStr (s suf : String) : Bool := suf.data.reverse.isPrefixOf s.data.reverse

/-- Python `str.isspace` characters (default `str.strip` set). -/
def isSpaceChar (c : Char) : Bool :=
  c = ' ' || c = '\t' || c = '\n' || c = '\r' || c = '\x0b' || c = '\x0c'

/-- Python `str.strip()`. -/
def stripStr (s : String) : String :=
  String.mk (((s.data.dropWhile isSpaceChar).reverse.dropWhile isSpaceChar).reverse)

/-- Python single-character `str.replace(a, b)` (the sources only ever
replace one character by another). -/
def replaceChar (a b : Char) (s : String) : String :=
  String.mk (s.data.map (fun c => if c = a then b else c))

/-- Python `str.split(sep)` for a one-character separator, on character
lists: `"".split(sep) = [""]` and a trailing separator yields a final
empty piece. -/
def splitOnChar (sep : Char) : List Char → List (List Char)
  | [] => [[]]
  | c :: t =>
    let r := splitOnChar sep t
    if c = sep then [] :: r
    else
      match r with
      | [] => [[c]]
      | h :: t2 => (c :: h) :: t2

/-! ### gemini_transcriber.py -/

/-- Remote file states distinguished by `transcribe_audio`: the loop runs
while the state is not ACTIVE and treats FAILED specially; every other
state (e.g. PROCESSING) behaves like `pending`. -/
inductive FileState
  | pending
  | active
  | failed
deriving DecidableEq

/-- Embeds `MIME_TYPE_MAP.get(ext)`: the literal dict at the top of
gemini_transcriber.py, embedded as its lookup function. -/
def MIME_TYPE_MAP_get (e : String) : Option String :=
  if e = ".mp3" then some "audio/mp3"
  else if e = ".wav" then some "audio/wav"
  else if e = ".m4a" then some "audio/m4a"
  else if e = ".flac" then some "audio/flac"
  else if e = ".webm" then some "audio/webm"
  else none

/-- Index of the last occurrence of a dot in a character list (Python
`str.rfind` of the extension separator, restricted to one component). -/
def lastDotIdx : List Char → Option Nat
  | [] => none
  | c :: rest =>
    match lastDotIdx rest with
    | some i => some (i + 1)
    | none => if c = '.' then some 0 else none

/-- The extension part of `os.path.splitext(p)`: within the last path
component, the suffix from the last dot, provided some character before
that dot is not itself a dot (so ".bashrc" has no extension). Mirrors
CPython genericpath._splitext with sep = slash. -/
def splitextExt (p : String) : String :=
  let base := (p.data.reverse.takeWhile (fun c => c ≠ '/')).reverse
  match lastDotIdx base with
  | none => ""
  | some d =>
    if (base.take d).any (fun c => c ≠ '.') then String.mk (base.drop d)
    else ""

/-- How the polling while-loop in `transcribe_audio` exited. -/
inductive PollExit
  | toActive
  | toTimeout
  | toFailed
  | toGetError
  | exhausted
deriving DecidableEq

/-- Trace of one run of the polling loop: how it exited, how many
`time.sleep(2)` calls, how many `client.files.get` calls, how many
`client.files.delete` attempts it made. -/
structure PollRes where
  exit : PollExit
  sleeps : Nat
  polls : Nat
  deletes : Nat
deriving DecidableEq

/-- The `while file_state != types.FileState.ACTIVE` loop of
`transcribe_audio` (lines 55-82). `gets` is the injected sequence of
outcomes of successive `client.files.get` calls (`none` = the call raised).
Only `time.sleep(2)` advances the modelled clock; the timeout check is
`elapsed > 120`. `exhausted` marks a run that needs more injected poll
results than provided (not a code path). -/
def poll (gets : List (Option FileState)) (st : FileState) (elapsed : Nat) : PollRes :=
  if st = .active then ⟨.toActive, 0, 0, 0⟩
  else if elapsed > 120 then ⟨.toTimeout, 0, 0, 1⟩
  else if st = .failed then ⟨.toFailed, 0, 0, 1⟩
  else
    match gets with
    | [] => ⟨.exhausted, 1, 0, 0⟩
    | none :: _ => ⟨.toGetError, 1, 1, 0⟩
    | some s :: rest =>
      let r := poll rest s (elapsed + 2)
      ⟨r.exit, r.sleeps + 1, r.polls + 1, r.deletes⟩

/-- Embeds `ext.lower()` of `os.path.splitext(audio_path)` (lines 31-32). -/
def extOf (p : String) : String := toLowerStr (splitextExt p)

/-- The value `transcribe_audio` produces: either the raised
FileNotFoundError or one of its returned strings, classified. -/
inductive TOutcome
  | fileNotFound
  | noApiKey
  | unsupportedType
  | uploadError
  | timeoutError
  | processingFailed
  | getStatusError
  | genCallError
  | emptyTranscript
  | unparseable
  | ok (transcript : String)
  | modelExhausted
deriving DecidableEq

/-- Environment for one `transcribe_audio` call: the argument plus the
injected behaviour of the filesystem, the key, and the remote API.
`genResult = none` means `generate_content` raised; `some none` means the
response had no parseable `candidates[0].content.parts[0].text`;
`some (some t)` means that text was `t`. -/
structure TEnv where
  audio_path : String
  fileExists : Bool
  apiKeySet : Bool
  uploadOk : Bool
  initialState : FileState
  gets : List (Option FileState)
  genResult : Option (Option String)
deriving DecidableEq

/-- Full effect trace and outcome of one `transcribe_audio` call. -/
structure TResult where
  outcome : TOutcome
  selectedMime : Option String
  uploads : Nat
  polls : Nat
  sleeps : Nat
  genCalls : Nat
  deletes : Nat
  reachedGenerate : Bool
deriving DecidableEq

/-- Embeds `transcribe_audio` (gemini_transcriber.py lines 16-130), with its
effects made explicit. Order of checks follows the source: existence,
API key, extension, upload, poll loop, Part construction (which cannot
fail in the model), generate call, delete, response parsing. The remote
delete after a successful generate (line 119) happens before the response
is parsed, so the unparseable / empty-transcript returns still carry one
delete. -/
def transcribe_audio (env : TEnv) : TResult :=
  if ¬ env.fileExists then
    ⟨.fileNotFound, none, 0, 0, 0, 0, 0, false⟩
  else if ¬ env.apiKeySet then
    ⟨.noApiKey, none, 0, 0, 0, 0, 0, false⟩
  else
    match MIME_TYPE_MAP_get (extOf env.audio_path) with
    | none => ⟨.unsupportedType, none, 0, 0, 0, 0, 0, false⟩
    | some mime =>
      if ¬ env.uploadOk then
        ⟨.uploadError, some mime, 1, 0, 0, 0, 0, false⟩
      else
        let pr := poll env.gets env.initialState 0
        match pr.exit with
        | .toTimeout =>
          ⟨.timeoutError, some mime, 1, pr.polls, pr.sleeps, 0, pr.deletes, false⟩
        | .toFailed =>
          ⟨.processingFailed, some mime, 1, pr.polls, pr.sleeps, 0, pr.deletes, false⟩
        | .toGetError =>
          ⟨.getStatusError, some mime, 1, pr.polls, pr.sleeps, 0, pr.deletes, false⟩
        | .exhausted =>
          ⟨.modelExhausted, some mime, 1, pr.polls, pr.sleeps, 0, pr.deletes, false⟩
        | .toActive =>
          match env.genResult with
          | none =>
            ⟨.genCallError, some mime, 1, pr.polls, pr.sleeps, 1, pr.deletes + 1, true⟩
          | some none =>
            ⟨.unparseable, some mime, 1, pr.polls, pr.sleeps, 1, pr.deletes + 1, true⟩
          | some (some t) =>
            if stripStr t = "" then
              ⟨.emptyTranscript, some mime, 1, pr.polls, pr.sleeps, 1, pr.deletes + 1, true⟩
            else
              ⟨.ok (stripStr t), some mime, 1, pr.polls, pr.sleeps, 1, pr.deletes + 1, true⟩

/-! ### gemini_notes_generator.py -/

/-- The generation prompt is built by concatenating discrete pieces
(the fixed instruction plus transcript, then at most one of the template
piece or the user-prompt piece). Each piece is one constructor, so that
containment of a piece in the built prompt is a statement about this
list rather than about substrings. -/
inductive PromptSeg
  | instruction
  | transcriptSeg (t : String)
  | templateSeg (s : String)
  | userPromptSeg (s : String)
deriving DecidableEq

/-- The literal text each prompt piece contributes, as in the source
(the fixed instruction is the triple-quoted literal with its embedded
line breaks and indentation). -/
def renderSeg : PromptSeg → String
  | .instruction => "Please carefully review the attached audio file and its transcription. Convert this into clear, organized, and \n        easy-to-understand notes that reflect exactly what was said. Automatically create a logical structure using headings, bullet points, \n        and sections to highlight important parts like key topics, decisions, names, dates, and action items. Add timestamps where useful to \n        connect notes to the audio. Make the notes concise but informative, so they can be quickly read and understood. At the end, provide \n        a brief summary that captures the most important points and takeaways from the recording. Format the notes in a way that is neat and \n        professional, adapting the structure naturally based on the content of the audio and transcription. Ensure the notes serve as a reliable, \n        user-friendly document that anyone can easily follow and use.\n\n"
  | .transcriptSeg t => "Transcript:\n" ++ t
  | .templateSeg s => "\n\nUse this note style template: " ++ s ++ "."
  | .userPromptSeg s => "\n\nUser\x27s prompt: " ++ s

/-- Which pieces `generate_structured_notes` appends (lines 25-40):
always the instruction and the transcript, then the template piece when
`template` is truthy, else the user-prompt piece when `user_prompt` is
truthy (Python truthiness of a string = non-emptiness). -/
def buildPromptSegs (transcript_text template user_prompt : String) : List PromptSeg :=
  [.instruction, .transcriptSeg transcript_text] ++
    (if template ≠ "" then [.templateSeg template]
     else if user_prompt ≠ "" then [.userPromptSeg user_prompt]
     else [])

/-- The flat prompt string actually sent. -/
def buildPrompt (transcript_text template user_prompt : String) : String :=
  String.join ((buildPromptSegs transcript_text template user_prompt).map renderSeg)

/-- Python `\w` on the ASCII range: letters, digits, underscore. -/
def isWordChar (c : Char) : Bool := c.isAlphanum || c = '_'

/-- Embeds `re.sub(r'[^\w\-]', '', custom_title.replace(' ', '-'))` (line 60). -/
def sanitizeTitle (s : String) : String :=
  String.mk ((replaceChar ' ' '-' s).data.filter (fun c => isWordChar c || c = '-'))

/-- The fields of the `datetime.now()` value that `strftime` reads. -/
structure PyDateTime where
  year : Nat
  month : Nat
  day : Nat
  hour : Nat
  minute : Nat
  second : Nat
deriving DecidableEq

/-- Zero-padded 2-digit field of `strftime` (`%m`, `%d`, `%H`, `%M`, `%S`). -/
def pad2 (n : Nat) : String := if n < 10 then "0" ++ Nat.repr n else Nat.repr n

/-- Zero-padded 4-digit field of `strftime` (`%Y`). -/
def pad4 (n : Nat) : String :=
  if n < 10 then "000" ++ Nat.repr n
  else if n < 100 then "00" ++ Nat.repr n
  else if n < 1000 then "0" ++ Nat.repr n
  else Nat.repr n

/-- Embeds `datetime.now().strftime("%Y%m%d_%H%M%S")` (line 62). -/
def strftimeCompact (t : PyDateTime) : String :=
  pad4 t.year ++ pad2 t.month ++ pad2 t.day ++ "_" ++
    pad2 t.hour ++ pad2 t.minute ++ pad2 t.second

/-- What `python-docx` calls produce, abstracted: `add_heading`,
`add_paragraph(style="List Bullet")`, `add_paragraph`. -/
inductive DocElem
  | heading (s : String)
  | bulletItem (s : String)
  | paragraph (s : String)
deriving DecidableEq

/-- One iteration of the rendering loop (lines 72-77): trim the line;
a line starting with a bullet marker becomes a bullet item, any other
non-empty line a plain paragraph, an empty line nothing. -/
def lineElem (line : String) : Option DocElem :=
  let s := stripStr line
  if startsWithStr s "•" || startsWithStr s "-" then some (.bulletItem s)
  else if s ≠ "" then some (.paragraph s)
  else none

/-- Embeds `final_title.replace('_', ' ').replace('-', ' ')` (line 71). -/
def humanizeTitle (t : String) : String := replaceChar '-' ' ' (replaceChar '_' ' ' t)

/-- The document body built by lines 70-77: the humanized-title heading
followed by the per-line entries. -/
def renderDocx (final_title notes_text : String) : List DocElem :=
  .heading (humanizeTitle final_title) ::
    ((splitOnChar '\n' notes_text.data).map String.mk).filterMap lineElem

/-- Injected behaviour for one `generate_structured_notes` call:
the clock, the generation endpoint (`none` = the call or the extraction
of `candidates[0].content.parts[0].text` raised, `some raw` = that text
was `raw`), and whether building/saving the DOCX succeeds. -/
structure NotesEnv where
  now : PyDateTime
  genResult : Option String
  docxSaveOk : Bool
deriving DecidableEq

/-- Return value and trace of `generate_structured_notes`: the returned
triple `(docx_path, pdf_path, final_title-or-error)`, plus the document
that was saved, the prompt pieces sent, and the generate-call count. -/
structure NotesResult where
  docx_path : Option String
  pdf_path : Option String
  third : String
  document : Option (List DocElem)
  promptSent : Option (List PromptSeg)
  genCalls : Nat
deriving DecidableEq

/-- Embeds `generate_structured_notes` (gemini_notes_generator.py lines 12-84).
An ERROR transcript short-circuits before any prompt is built; otherwise
the prompt is built, the endpoint called, the title resolved (a custom
title is used only when truthy, i.e. non-empty), and the DOCX rendered
and saved. Error-message strings of exception paths are abstracted to
fixed representatives since the claims never inspect them. -/
def generate_structured_notes (transcript_text : String) (user_prompt : String)
    (custom_title : Option String) (template : String) (env : NotesEnv) : NotesResult :=
  if startsWithStr transcript_text "ERROR:" then
    ⟨none, none, transcript_text, none, none, 0⟩
  else
    let segs := buildPromptSegs transcript_text template user_prompt
    match env.genResult with
    | none =>
      ⟨none, none, "ERROR: Note Generation API call failed.", none, some segs, 1⟩
    | some raw =>
      let notes_text := stripStr raw
      let final_title :=
        match custom_title with
        | some c => if c ≠ "" then sanitizeTitle c
                    else "AI_Notes_" ++ strftimeCompact env.now
        | none => "AI_Notes_" ++ strftimeCompact env.now
      if env.docxSaveOk then
        ⟨some ("generated_docs/" ++ final_title ++ ".docx"), none, final_title,
          some (renderDocx final_title notes_text), some segs, 1⟩
      else
        ⟨none, none, "ERROR: Failed to save document to DOCX.", none, some segs, 1⟩

/-! ### main.py -/

/-- The `ALLOWED_EXTENSIONS` set literal of main.py. -/
def ALLOWED_EXTENSIONS : List String := ["mp3", "wav", "m4a", "flac", "webm"]

/-- Embeds `filename.rsplit('.', 1)[1]`: the part after the last dot. -/
def afterLastDot (s : String) : String :=
  String.mk ((s.data.reverse.takeWhile (fun c => c ≠ '.')).reverse)

/-- Embeds `allowed_file` (main.py lines 58-59). -/
def allowed_file (filename : String) : Bool :=
  filename.data.contains '.' &&
    ALLOWED_EXTENSIONS.contains (toLowerStr (afterLastDot filename))

/-- Outcome of the save block (main.py lines 95-97): `ok size` = the
file was written to `audio_path` with `size` bytes; `exc created` = an
exception was raised while opening or writing, with `created` recording
whether a (partial, possibly empty) file was left behind by `open`. -/
inductive SaveResult
  | ok (size : Nat)
  | exc (fileCreated : Bool)
deriving DecidableEq

/-- Injected behaviour for one `POST /api/transcribe` request:
`transcription = none` simulates `transcribe_audio` raising,
`some s` its returned string; `notesOk = false` simulates
`generate_structured_notes` raising. -/
structure ReqEnv where
  apiKeySet : Bool
  hasAudioPart : Bool
  filename : String
  save : SaveResult
  transcription : Option String
  notesOk : Bool
deriving DecidableEq

/-- What the handler left observable: the HTTP status it answered with
and whether the temp upload file is still on disk at return. -/
structure ReqResult where
  status : Nat
  tempFileRetained : Bool
deriving DecidableEq

/-- Substring test on character lists (Python `needle in hay`). -/
def containsSub (needle : List Char) : List Char → Bool
  | [] => needle.isPrefixOf ([] : List Char)
  | c :: t => needle.isPrefixOf (c :: t) || containsSub needle t

/-- Embeds `any(key in lower for key in ['api key', 'api_key', 'expired'])`
(main.py line 118), applied to the lowercased transcript. -/
def hasKeyErrorKeyword (t : String) : Bool :=
  let lower := (toLowerStr t).data
  containsSub "api key".data lower || containsSub "api_key".data lower ||
    containsSub "expired".data lower

/-- Embeds `handle_transcription` (main.py lines 74-155), tracking the temp
file. After a successful save the handlers remove the file on the
transcription-exception, transcription-ERROR, note-generation and
success paths; the zero-byte check (line 99) and the save-exception
handler (line 102) return without removing it. -/
def handle_transcription (env : ReqEnv) : ReqResult :=
  if ¬ env.apiKeySet then ⟨401, false⟩
  else if ¬ env.hasAudioPart then ⟨400, false⟩
  else if env.filename = "" then ⟨400, false⟩
  else if allowed_file env.filename then
    match env.save with
    | .exc created => ⟨500, created⟩
    | .ok size =>
      if size = 0 then ⟨500, true⟩
      else
        match env.transcription with
        | none => ⟨500, false⟩
        | some t =>
          if startsWithStr t "ERROR:" then
            if hasKeyErrorKeyword t then ⟨401, false⟩ else ⟨500, false⟩
          else if env.notesOk then ⟨200, false⟩
          else ⟨500, false⟩
  else ⟨400, false⟩

/-- One entry of `os.listdir(DOCX_DIR)` as `get_stats` inspects it:
its name, whether `os.path.isfile` holds, and its mtime in seconds. -/
structure StatEntry where
  name : String
  isFile : Bool
  mtime : Int
deriving DecidableEq

/-- Embeds `get_stats` (main.py lines 239-255): count every regular file in the
directory whose mtime is strictly newer than `now` minus 7 days,
whatever its name. -/
def get_stats (now : Int) (entries : List StatEntry) : Nat :=
  entries.foldl
    (fun acc e => if e.isFile && decide (e.mtime > now - 7 * 86400) then acc + 1 else acc) 0

/-- Modelled from the spec (for comparison with `get_stats`): the count
the claim describes, restricted to note documents — files whose name
ends with the note extension `.docx` — modified within the trailing 7 days. -/
def specNotesThisWeek (now : Int) (entries : List StatEntry) : Nat :=
  (entries.filter
    (fun e => e.isFile && endsWithStr e.name ".docx" && decide (e.mtime > now - 7 * 86400))).length

/-- A stored user profile document. -/
structure UserProfile where
  name : String
  email : String
  initials : String
deriving DecidableEq

/-- Embeds `load_user` (main.py lines 17-21): the stored profile if the file
exists, else the default. -/
def load_user (stored : Option UserProfile) : UserProfile :=
  match stored with
  | some p => p
  | none => ⟨"User", "", "U"⟩

/-- Embeds `GET /api/profile` (main.py lines 257-260): `jsonify(load_user())`. -/
def profile_get (stored : Option UserProfile) : UserProfile := load_user stored

/-- Response of `POST /api/chat`: status, the `response` field, and how
many `generate_content` calls were made. -/
structure ChatResult where
  status : Nat
  response : String
  genCalls : Nat
deriving DecidableEq

/-- Embeds `handle_ai_chat` (main.py lines 185-222). `message = none` models a
JSON body without the `message` field (`data.get('message', '')`). The
generation answer is injected: `none` = the call raised. -/
def handle_ai_chat (apiKeySet : Bool) (message attached_note : Option String)
    (genResult : Option String) : ChatResult :=
  if ¬ apiKeySet then
    ⟨401, "GEMINI_API_KEY is missing. Please set it in your environment.", 0⟩
  else
    let user_message := message.getD ""
    if user_message = "" then ⟨200, "Please type a message.", 0⟩
    else
      match genResult with
      | some t => ⟨200, t, 1⟩
      | none => ⟨500, "An unexpected error occurred with the AI chat.", 1⟩

/-! ## Helper lemmas -/

/-- The poll loop makes exactly one remote delete attempt when it exits by
timeout or by the FAILED state, and none otherwise. -/
theorem poll_deletes_eq (gets : List (Option FileState)) :
    ∀ (st : FileState) (elapsed : Nat),
      (poll gets st elapsed).deletes =
        (if (poll gets st elapsed).exit = .toTimeout ∨
            (poll gets st elapsed).exit = .toFailed then 1 else 0) := by
  induction gets with
  | nil =>
    intro st elapsed
    unfold poll
    by_cases h1 : st = FileState.active
    · simp [h1]
    · by_cases h2 : elapsed > 120
      · simp [h1, h2]
      · by_cases h3 : st = FileState.failed
        · simp [h1, h2, h3]
        · simp [h1, h2, h3]
  | cons hd tl ih =>
    intro st elapsed
    unfold poll
    by_cases h1 : st = FileState.active
    · simp [h1]
    · by_cases h2 : elapsed > 120
      · simp [h1, h2]
      · by_cases h3 : st = FileState.failed
        · simp [h1, h2, h3]
        · cases hd with
          | none => simp [h1, h2, h3]
          | some s => simpa [h1, h2, h3] using ih s (elapsed + 2)

/-- An extension outside the allow-list is absent from `MIME_TYPE_MAP`. -/
theorem MIME_TYPE_MAP_get_eq_none (e : String)
    (h : e ∉ ([".mp3", ".wav", ".m4a", ".flac", ".webm"] : List String)) :
    MIME_TYPE_MAP_get e = none := by
  simp only [List.mem_cons, List.not_mem_nil, or_false, not_or] at h
  obtain ⟨h1, h2, h3, h4, h5⟩ := h
  simp [MIME_TYPE_MAP_get, h1, h2, h3, h4, h5]

/-- Past the key and extension checks, the selected content type is the
map entry for the lowercased extension, on every subsequent path. -/
theorem transcribe_selectedMime (env : TEnv) (m : String)
    (hf : env.fileExists = true) (hk : env.apiKeySet = true)
    (hm : MIME_TYPE_MAP_get (extOf env.audio_path) = some m) :
    (transcribe_audio env).selectedMime = some m := by
  unfold transcribe_audio
  simp only [hf, hk, hm, not_true, if_false, Bool.not_eq_true]
  split
  · rfl
  · split
    · rfl
    · rfl
    · rfl
    · rfl
    · split
      · rfl
      · rfl
      · split <;> rfl

/-- An unsupported extension returns the unsupported-type error with an
all-zero effect trace. -/
theorem transcribe_unsupported (env : TEnv)
    (hf : env.fileExists = true) (hk : env.apiKeySet = true)
    (hm : MIME_TYPE_MAP_get (extOf env.audio_path) = none) :
    transcribe_audio env = ⟨.unsupportedType, none, 0, 0, 0, 0, 0, false⟩ := by
  unfold transcribe_audio
  simp [hf, hk, hm]

/-! ## Claims -/

/-- C3: modelling the poll loop with an injected sequence of remote
states: with observed states [PENDING, PENDING, ACTIVE] after upload,
`transcribe_audio` reaches the generation step after exactly 2 sleeps
(for every shape of generation outcome); with first observed state
FAILED it returns the processing-failed error with zero sleeps and
exactly one remote delete; with every observed state PENDING until the
120-second budget is exceeded it returns the timeout error with exactly
one remote delete. -/
theorem C3_poll_traces :
    (∀ g ∈ ([none, some none, some (some "hi"), some (some "")] :
        List (Option (Option String))),
      (transcribe_audio ⟨"a.mp3", true, true, true, .pending,
        [some .pending, some .active], g⟩).reachedGenerate = true ∧
      (transcribe_audio ⟨"a.mp3", true, true, true, .pending,
        [some .pending, some .active], g⟩).sleeps = 2) ∧
    transcribe_audio ⟨"a.mp3", true, true, true, .failed, [], some (some "hi")⟩ =
      ⟨.processingFailed, some "audio/mp3", 1, 0, 0, 0, 1, false⟩ ∧
    (transcribe_audio ⟨"a.mp3", true, true, true, .pending,
        List.replicate 61 (some .pending), some (some "hi")⟩).outcome = .timeoutError ∧
    (transcribe_audio ⟨"a.mp3", true, true, true, .pending,
        List.replicate 61 (some .pending), some (some "hi")⟩).deletes = 1 ∧
    (transcribe_audio ⟨"a.mp3", true, true, true, .pending,
        List.replicate 61 (some .pending), some (some "hi")⟩).sleeps = 61 := by
  decide

/-- Witness for C3 at the generation outcome `none` (generate call raised). -/
theorem C3_poll_traces_witness :
    (transcribe_audio ⟨"a.mp3", true, true, true, .pending,
      [some .pending, some .active], none⟩).reachedGenerate = true :=
  (C3_poll_traces.1 none (by decide)).1

/-- C9: with no profile file on disk, `GET /api/profile` returns the
default profile; a stored profile is returned verbatim. -/
theorem C9_profile_default :
    profile_get none = ⟨"User", "", "U"⟩ ∧
    ∀ p : UserProfile, profile_get (some p) = p :=
  ⟨rfl, fun _ => rfl⟩

/-- Witness for C9 at a concrete stored profile. -/
theorem C9_profile_default_witness :
    profile_get (some ⟨"Ada", "ada@x.io", "A"⟩) = ⟨"Ada", "ada@x.io", "A"⟩ :=
  C9_profile_default.2 ⟨"Ada", "ada@x.io", "A"⟩

/-- C10: with the credential set, a missing or empty `message` field
yields HTTP 200 with the fixed please-type-a-message response and no
generation call, whatever the attached note and endpoint behaviour. -/
theorem C10_chat_empty_message :
    ∀ attached_note genResult : Option String,
      handle_ai_chat true none attached_note genResult =
        ⟨200, "Please type a message.", 0⟩ ∧
      handle_ai_chat true (some "") attached_note genResult =
        ⟨200, "Please type a message.", 0⟩ :=
  fun _ _ => ⟨rfl, rfl⟩

/-- Witness for C10 with an attached note and a live endpoint. -/
theorem C10_chat_empty_message_witness :
    handle_ai_chat true none (some "Note") (some "reply") =
      ⟨200, "Please type a message.", 0⟩ :=
  (C10_chat_empty_message (some "Note") (some "reply")).1

/-- C5 counterexample: rendering "Intro\n- point one\nSummary line" does
NOT yield just a heading, one bullet entry and one plain entry — the
claim omits the plain paragraph produced for "Intro". -/
theorem C5_render_counterexample :
    (generate_structured_notes "T" "" (some "Title") ""
        ⟨⟨2025, 10, 12, 13, 14, 15⟩, some "Intro\n- point one\nSummary line", true⟩).document ≠
      some [.heading "Title", .bulletItem "- point one", .paragraph "Summary line"] := by
  decide

/-- C5 amended: rendering "Intro\n- point one\nSummary line" yields the
heading, a plain paragraph "Intro", the bullet entry "- point one" and a
plain paragraph "Summary line"; blank lines (second input) are dropped. -/
theorem C5_render_amended :
    (generate_structured_notes "T" "" (some "Title") ""
        ⟨⟨2025, 10, 12, 13, 14, 15⟩, some "Intro\n- point one\nSummary line", true⟩).document =
      some [.heading "Title", .paragraph "Intro", .bulletItem "- point one",
        .paragraph "Summary line"] ∧
    (generate_structured_notes "T" "" (some "Title") ""
        ⟨⟨2025, 10, 12, 13, 14, 15⟩, some "Intro\n\n- point one\n   \nSummary line", true⟩).document =
      some [.heading "Title", .paragraph "Intro", .bulletItem "- point one",
        .paragraph "Summary line"] := by
  decide

/-- C8 counterexample: a non-note file (name not ending in ".docx")
modified now IS counted by `get_stats`, though the claim says only note
documents are counted. -/
theorem C8_stats_counterexample :
    get_stats 1000000 [⟨"orphan.txt", true, 1000000⟩] = 1 ∧
    specNotesThisWeek 1000000 [⟨"orphan.txt", true, 1000000⟩] = 0 := by
  decide

/-- Auxiliary: the counting fold of `get_stats` from any accumulator. -/
theorem get_stats_foldl (now : Int) (l : List StatEntry) (acc : Nat) :
    l.foldl (fun acc e =>
        if e.isFile && decide (e.mtime > now - 7 * 86400) then acc + 1 else acc) acc =
      acc + (l.filter (fun e => e.isFile && decide (e.mtime > now - 7 * 86400))).length := by
  induction l generalizing acc with
  | nil => rfl
  | cons e t ih =>
    rw [List.foldl_cons, List.filter_cons, ih]
    by_cases h : (e.isFile && decide (e.mtime > now - 7 * 86400)) = true
    · rw [if_pos h, if_pos h, List.length_cons]
      omega
    · rw [if_neg h, if_neg h]

/-- C8 amended: `GET /api/stats` returns 0 for an empty storage
directory, and in general counts every regular file in the directory
whose mtime lies within the trailing 7 days, regardless of its name or
extension. -/
theorem C8_stats_amended :
    (∀ now : Int, get_stats now [] = 0) ∧
    ∀ (now : Int) (entries : List StatEntry),
      get_stats now entries =
        (entries.filter (fun e => e.isFile && decide (e.mtime > now - 7 * 86400))).length := by
  refine ⟨fun now => rfl, fun now entries => ?_⟩
  have h := get_stats_foldl now entries 0
  rw [Nat.zero_add] at h
  exact h

/-- Witness for C8 amended at a two-element directory with one stale file. -/
theorem C8_stats_amended_witness :
    get_stats 1000000 [⟨"a.docx", true, 999999⟩, ⟨"old.docx", true, 0⟩] = 1 :=
  (C8_stats_amended.2 1000000 [⟨"a.docx", true, 999999⟩, ⟨"old.docx", true, 0⟩]).trans (by decide)

/-- C4: for every existing input file (with the credential set), each
allow-listed extension — compared case-insensitively — selects its
corresponding audio content type, and any extension outside the
allow-list returns the unsupported-type error before any network
operation: zero upload, status-poll, generate and delete calls. -/
theorem C4_extension_dispatch :
    ∀ env : TEnv, env.fileExists = true → env.apiKeySet = true →
      ((extOf env.audio_path = ".mp3" →
          (transcribe_audio env).selectedMime = some "audio/mp3") ∧
       (extOf env.audio_path = ".wav" →
          (transcribe_audio env).selectedMime = some "audio/wav") ∧
       (extOf env.audio_path = ".m4a" →
          (transcribe_audio env).selectedMime = some "audio/m4a") ∧
       (extOf env.audio_path = ".flac" →
          (transcribe_audio env).selectedMime = some "audio/flac") ∧
       (extOf env.audio_path = ".webm" →
          (transcribe_audio env).selectedMime = some "audio/webm")) ∧
      (extOf env.audio_path ∉ ([".mp3", ".wav", ".m4a", ".flac", ".webm"] : List String) →
        transcribe_audio env = ⟨.unsupportedType, none, 0, 0, 0, 0, 0, false⟩) := by
  intro env hf hk
  refine ⟨⟨fun h => ?_, fun h => ?_, fun h => ?_, fun h => ?_, fun h => ?_⟩, fun h => ?_⟩
  · exact transcribe_selectedMime env _ hf hk (by rw [h]; rfl)
  · exact transcribe_selectedMime env _ hf hk (by rw [h]; rfl)
  · exact transcribe_selectedMime env _ hf hk (by rw [h]; rfl)
  · exact transcribe_selectedMime env _ hf hk (by rw [h]; rfl)
  · exact transcribe_selectedMime env _ hf hk (by rw [h]; rfl)
  · exact transcribe_unsupported env hf hk (MIME_TYPE_MAP_get_eq_none _ h)

/-- Witness for C4: a supported uppercase extension selects its type; an
unsupported one performs no network call. -/
theorem C4_extension_dispatch_witness :
    (transcribe_audio ⟨"song.FLAC", true, true, true, .active, [], none⟩).selectedMime =
      some "audio/flac" ∧
    transcribe_audio ⟨"clip.ogg", true, true, true, .active, [], none⟩ =
      ⟨.unsupportedType, none, 0, 0, 0, 0, 0, false⟩ :=
  ⟨(C4_extension_dispatch ⟨"song.FLAC", true, true, true, .active, [], none⟩
      rfl rfl).1.2.2.2.1 (by decide),
   (C4_extension_dispatch ⟨"clip.ogg", true, true, true, .active, [], none⟩
      rfl rfl).2 (by decide)⟩

/-- Whenever `generate_structured_notes` sends a prompt at all, that
prompt is exactly the one `buildPromptSegs` assembles. -/
theorem promptSent_eq (transcript_text user_prompt : String)
    (custom_title : Option String) (template : String) (env : NotesEnv)
    (segs : List PromptSeg)
    (h : (generate_structured_notes transcript_text user_prompt custom_title
            template env).promptSent = some segs) :
    segs = buildPromptSegs transcript_text template user_prompt := by
  obtain ⟨now, genR, dok⟩ := env
  unfold generate_structured_notes at h
  by_cases hs : startsWithStr transcript_text "ERROR:" = true
  · rw [if_pos hs] at h
    exact Option.noConfusion h
  · rw [if_neg hs] at h
    cases genR with
    | none => exact (Option.some_inj.mp h).symm
    | some raw =>
      cases dok with
      | true => exact (Option.some_inj.mp h).symm
      | false => exact (Option.some_inj.mp h).symm

/-- C7: when both a non-empty template and a non-empty user prompt are
supplied, the prompt sent to the generation endpoint contains the
template piece and no user-prompt piece; the user-prompt piece is sent
exactly when the template is empty and the prompt non-empty. -/
theorem C7_template_precedence :
    (∀ (transcript_text user_prompt : String) (custom_title : Option String)
        (template : String) (env : NotesEnv) (segs : List PromptSeg),
      template ≠ "" → user_prompt ≠ "" →
      (generate_structured_notes transcript_text user_prompt custom_title
          template env).promptSent = some segs →
      PromptSeg.templateSeg template ∈ segs ∧
        ∀ s, PromptSeg.userPromptSeg s ∉ segs) ∧
    (∀ (transcript_text user_prompt : String) (custom_title : Option String)
        (env : NotesEnv) (segs : List PromptSeg),
      user_prompt ≠ "" →
      (generate_structured_notes transcript_text user_prompt custom_title
          "" env).promptSent = some segs →
      PromptSeg.userPromptSeg user_prompt ∈ segs) := by
  constructor
  · intro tr up ct tpl env segs htpl hup h
    rw [promptSent_eq tr up ct tpl env segs h]
    constructor
    · simp [buildPromptSegs, htpl]
    · intro s
      simp [buildPromptSegs, htpl]
  · intro tr up ct env segs hup h
    rw [promptSent_eq tr up ct "" env segs h]
    simp [buildPromptSegs, hup]

/-- Witness for C7 with concrete template and prompt. -/
theorem C7_template_precedence_witness :
    PromptSeg.templateSeg "tpl" ∈ buildPromptSegs "T" "tpl" "up" ∧
    PromptSeg.userPromptSeg "up" ∉ buildPromptSegs "T" "tpl" "up" :=
  ⟨(C7_template_precedence.1 "T" "up" none "tpl" ⟨⟨2025, 10, 12, 13, 14, 15⟩, some "x", true⟩
      (buildPromptSegs "T" "tpl" "up") (by decide) (by decide) rfl).1,
   (C7_template_precedence.1 "T" "up" none "tpl" ⟨⟨2025, 10, 12, 13, 14, 15⟩, some "x", true⟩
      (buildPromptSegs "T" "tpl" "up") (by decide) (by decide) rfl).2 "up"⟩

/-- C2 counterexample: a request that reaches the save step and saves
zero bytes returns 500 with the temp upload file still on disk. -/
theorem C2_cleanup_counterexample :
    handle_transcription ⟨true, true, "a.mp3", .ok 0, some "t", true⟩ = ⟨500, true⟩ := by
  decide

/-- C2 amended: once a request reaches the save step, the temp upload is
removed before return on every path that passes the save validation
(non-zero saved size): transcription exception, transcription ERROR,
note-generation failure and success; but the zero-byte save failure
returns 500 with the empty file retained, and a save exception retains
whatever partial file was created. -/
theorem C2_cleanup_amended :
    ∀ env : ReqEnv, env.apiKeySet = true → env.hasAudioPart = true →
      env.filename ≠ "" → allowed_file env.filename = true →
      ((∀ n, env.save = .ok n → n ≠ 0 →
          (handle_transcription env).tempFileRetained = false) ∧
       (env.save = .ok 0 → handle_transcription env = ⟨500, true⟩) ∧
       (∀ b, env.save = .exc b → handle_transcription env = ⟨500, b⟩)) := by
  intro env hk ha hfn hal
  obtain ⟨k, a, fn, sv, tr, no⟩ := env
  replace hk : k = true := hk
  replace ha : a = true := ha
  replace hfn : fn ≠ "" := hfn
  replace hal : allowed_file fn = true := hal
  subst hk
  subst ha
  refine ⟨fun n hsave hn => ?_, fun hsave => ?_, fun b hsave => ?_⟩
  · replace hsave : sv = SaveResult.ok n := hsave
    subst hsave
    cases tr with
    | none => simp [handle_transcription, hfn, hal, hn]
    | some t =>
      by_cases hs : startsWithStr t "ERROR:" = true <;>
        by_cases hkw : hasKeyErrorKeyword t = true <;>
          cases no <;> simp [handle_transcription, hfn, hal, hn, hs, hkw]
  · replace hsave : sv = SaveResult.ok 0 := hsave
    subst hsave
    simp [handle_transcription, hfn, hal]
  · replace hsave : sv = SaveResult.exc b := hsave
    subst hsave
    simp [handle_transcription, hfn, hal]

/-- Witness for C2 amended: a successful request removes the temp file. -/
theorem C2_cleanup_amended_witness :
    (handle_transcription ⟨true, true, "a.mp3", .ok 7, some "t", true⟩).tempFileRetained = false :=
  (C2_cleanup_amended ⟨true, true, "a.mp3", .ok 7, some "t", true⟩ rfl rfl
    (by decide) (by decide)).1 7 rfl (by decide)

/-- C1 counterexample: after a successful upload, a failing status poll
makes `transcribe_audio` return with zero remote delete calls — the
remote asset is orphaned on that exit path. -/
theorem C1_delete_counterexample :
    (transcribe_audio ⟨"a.mp3", true, true, true, .pending, [none], some (some "hi")⟩).outcome =
      .getStatusError ∧
    (transcribe_audio ⟨"a.mp3", true, true, true, .pending, [none], some (some "hi")⟩).uploads = 1 ∧
    (transcribe_audio ⟨"a.mp3", true, true, true, .pending, [none], some (some "hi")⟩).deletes = 0 := by
  decide

/-- C1 amended: for every invocation that successfully uploads, the
remote asset is deleted exactly once before the call returns on every
exit path — success, generation-call failure, malformed response, empty
transcript, processing FAILED, processing timeout — EXCEPT the
transient status-poll failure path, which returns with zero deletes. -/
theorem C1_delete_amended :
    ∀ env : TEnv, env.fileExists = true → env.apiKeySet = true →
      (MIME_TYPE_MAP_get (extOf env.audio_path)).isSome = true →
      env.uploadOk = true →
      (transcribe_audio env).outcome ≠ .modelExhausted →
      (transcribe_audio env).deletes =
        (if (transcribe_audio env).outcome = .getStatusError then 0 else 1) := by
  intro env hf hk hm hu hex
  obtain ⟨m, hm2⟩ := Option.isSome_iff_exists.mp hm
  obtain ⟨path, fex, key, upl, st0, gets0, genR⟩ := env
  replace hf : fex = true := hf
  replace hk : key = true := hk
  replace hu : upl = true := hu
  replace hm2 : MIME_TYPE_MAP_get (extOf path) = some m := hm2
  subst hf
  subst hk
  subst hu
  have hp := poll_deletes_eq gets0 st0 0
  unfold transcribe_audio at hex ⊢
  simp only [hm2, not_true, Bool.not_eq_true, if_false] at hex ⊢
  cases hE : (poll gets0 st0 0).exit with
  | toActive =>
    rw [hE] at hp
    simp at hp
    simp only [hE] at hex ⊢
    cases genR with
    | none => simp [hp]
    | some o =>
      cases o with
      | none => simp [hp]
      | some t => by_cases ht : stripStr t = "" <;> simp [hp, ht]
  | toTimeout =>
    rw [hE] at hp
    simp only [hE] at hex ⊢
    simp at hp
    simp [hp]
  | toFailed =>
    rw [hE] at hp
    simp only [hE] at hex ⊢
    simp at hp
    simp [hp]
  | toGetError =>
    rw [hE] at hp
    simp only [hE] at hex ⊢
    simp at hp
    simp [hp]
  | exhausted =>
    simp only [hE] at hex
    simp at hex

/-- Witness for C1 amended on the success path: exactly one delete. -/
theorem C1_delete_amended_witness :
    (transcribe_audio ⟨"a.mp3", true, true, true, .active, [], some (some "hi")⟩).deletes =
      (if (transcribe_audio ⟨"a.mp3", true, true, true, .active, [],
            some (some "hi")⟩).outcome = .getStatusError then 0 else 1) :=
  C1_delete_amended ⟨"a.mp3", true, true, true, .active, [], some (some "hi")⟩
    rfl rfl (by decide) rfl (by decide)

/-! ## Decimal-representation lemmas for the timestamp title -/

/-- Value of `Nat.digitChar` below ten is a decimal digit character. -/
theorem digitChar_isDigit (n : Nat) (h : n < 10) : (Nat.digitChar n).isDigit = true := by
  interval_cases n <;> decide

/-- One unfolding step of the numeral printer, final digit. -/
theorem toDigitsCore_small (fuel n : Nat) (ds : List Char) (h : n < 10) :
    Nat.toDigitsCore 10 (fuel + 1) n ds = Nat.digitChar n :: ds := by
  have h1 : n % 10 = n := Nat.mod_eq_of_lt h
  have h2 : n / 10 = 0 := Nat.div_eq_of_lt h
  simp [Nat.toDigitsCore, h1, h2]

/-- One unfolding step of the numeral printer, non-final digit. -/
theorem toDigitsCore_step (fuel n : Nat) (ds : List Char) (h : 10 ≤ n) :
    Nat.toDigitsCore 10 (fuel + 1) n ds =
      Nat.toDigitsCore 10 fuel (n / 10) (Nat.digitChar (n % 10) :: ds) := by
  have h2 : ¬ (n / 10 = 0) := by omega
  simp [Nat.toDigitsCore, h2]

/-- Rendering of a one-digit number by `Nat.repr`. -/
theorem repr_one_digit (n : Nat) (h : n < 10) :
    Nat.repr n = String.mk [Nat.digitChar n] := by
  unfold Nat.repr Nat.toDigits
  obtain ⟨f, hf⟩ : ∃ f, n + 1 = f + 1 := ⟨n, rfl⟩
  rw [hf, toDigitsCore_small f n [] h]
  rfl

/-- Rendering of a two-digit number by `Nat.repr`. -/
theorem repr_two_digits (n : Nat) (h1 : 10 ≤ n) (h2 : n < 100) :
    Nat.repr n = String.mk [Nat.digitChar (n / 10), Nat.digitChar (n % 10)] := by
  unfold Nat.repr Nat.toDigits
  obtain ⟨f, hf⟩ : ∃ f, n + 1 = f + 2 := ⟨n - 1, by omega⟩
  rw [hf, toDigitsCore_step (f + 1) n [] h1,
    toDigitsCore_small f (n / 10) _ (by omega)]
  rfl

/-- Rendering of a four-digit number by `Nat.repr`. -/
theorem repr_four_digits (n : Nat) (h1 : 1000 ≤ n) (h2 : n < 10000) :
    Nat.repr n = String.mk [Nat.digitChar (n / 1000), Nat.digitChar (n / 100 % 10),
      Nat.digitChar (n / 10 % 10), Nat.digitChar (n % 10)] := by
  unfold Nat.repr Nat.toDigits
  obtain ⟨f, hf⟩ : ∃ f, n + 1 = f + 4 := ⟨n - 3, by omega⟩
  rw [hf, toDigitsCore_step (f + 3) n [] (by omega),
    toDigitsCore_step (f + 2) (n / 10) _ (by omega),
    toDigitsCore_step (f + 1) (n / 10 / 10) _ (by omega),
    toDigitsCore_small f (n / 10 / 10 / 10) _ (by omega),
    show n / 10 / 10 / 10 = n / 1000 by
      rw [Nat.div_div_eq_div_mul, Nat.div_div_eq_div_mul],
    show n / 10 / 10 = n / 100 by rw [Nat.div_div_eq_div_mul]]
  rfl

/-- Concatenation acts on the character lists. -/
theorem strDataAppend (a b : String) : (a ++ b).data = a.data ++ b.data := rfl

/-- Length of a concatenation. -/
theorem strLengthAppend (a b : String) : (a ++ b).length = a.length + b.length := by
  show (a.data ++ b.data).length = a.data.length + b.data.length
  exact List.length_append a.data b.data

/-- Predicate `List.all` over a concatenation of character lists. -/
theorem strAllAppend (a b : String) (f : Char → Bool) :
    (a ++ b).data.all f = (a.data.all f && b.data.all f) := by
  show (a.data ++ b.data).all f = _
  exact List.all_append

/-- Output of `pad2` below 100 is two decimal digit characters. -/
theorem pad2_spec (n : Nat) (h : n < 100) :
    (pad2 n).length = 2 ∧ (pad2 n).data.all Char.isDigit = true := by
  unfold pad2
  by_cases h1 : n < 10
  · rw [if_pos h1, repr_one_digit n h1]
    refine ⟨rfl, ?_⟩
    rw [show (("0" ++ String.mk [Nat.digitChar n]).data) = ['0', Nat.digitChar n] from rfl]
    simp [digitChar_isDigit n h1]
  · rw [if_neg h1, repr_two_digits n (by omega) h]
    refine ⟨rfl, ?_⟩
    simp [digitChar_isDigit (n / 10) (by omega), digitChar_isDigit (n % 10) (by omega)]

/-- Output of `pad4` on a four-digit year is four decimal digit characters. -/
theorem pad4_spec (n : Nat) (h1 : 1000 ≤ n) (h2 : n < 10000) :
    (pad4 n).length = 4 ∧ (pad4 n).data.all Char.isDigit = true := by
  unfold pad4
  rw [if_neg (by omega), if_neg (by omega), if_neg (by omega), repr_four_digits n h1 h2]
  refine ⟨rfl, ?_⟩
  simp [digitChar_isDigit (n / 1000) (by omega), digitChar_isDigit (n / 100 % 10) (by omega),
    digitChar_isDigit (n / 10 % 10) (by omega), digitChar_isDigit (n % 10) (by omega)]

/-- C6 counterexample: at 2025-10-12 13:14:15 the generated default
title is "AI_Notes_20251012_131415"; its part after "AI_Notes_" has 15
characters (8 digits, an underscore, 6 digits), so the title does not
match "AI_Notes_" followed by a 14-digit timestamp. -/
theorem C6_title_counterexample :
    ¬ ∃ ds : String,
      (generate_structured_notes "T" "" none ""
          ⟨⟨2025, 10, 12, 13, 14, 15⟩, some "x", true⟩).third = "AI_Notes_" ++ ds ∧
      ds.length = 14 ∧ ds.data.all Char.isDigit = true := by
  rintro ⟨ds, h, hlen, hdig⟩
  have h3 : (generate_structured_notes "T" "" none ""
      ⟨⟨2025, 10, 12, 13, 14, 15⟩, some "x", true⟩).third = "AI_Notes_20251012_131415" := by
    decide
  rw [h3] at h
  have hl := congrArg String.length h
  rw [strLengthAppend, show ("AI_Notes_20251012_131415" : String).length = 24 from rfl,
    show ("AI_Notes_" : String).length = 9 from rfl] at hl
  omega

/-- C6 amended: a custom title is sanitized by replacing spaces with
hyphens and dropping every character outside word characters and hyphen
("My Meeting Notes!" ↦ "My-Meeting-Notes"); with no custom title the
final title is "AI_Notes_" followed by an 8-digit date, an underscore
and a 6-digit time — 14 digits in total at second precision, not 14
contiguous digits. -/
theorem C6_title_amended :
    ((generate_structured_notes "T" "" (some "My Meeting Notes!") ""
        ⟨⟨2025, 10, 12, 13, 14, 15⟩, some "x", true⟩).third = "My-Meeting-Notes") ∧
    (∀ c : String, c ≠ "" →
      (generate_structured_notes "T" "" (some c) ""
          ⟨⟨2025, 10, 12, 13, 14, 15⟩, some "x", true⟩).third = sanitizeTitle c) ∧
    (∀ t : PyDateTime, 1000 ≤ t.year → t.year < 10000 → t.month < 100 →
        t.day < 100 → t.hour < 100 → t.minute < 100 → t.second < 100 →
      ∃ d tm : String,
        (generate_structured_notes "T" "" none "" ⟨t, some "x", true⟩).third =
          "AI_Notes_" ++ d ++ "_" ++ tm ∧
        d.length = 8 ∧ tm.length = 6 ∧
        d.data.all Char.isDigit = true ∧ tm.data.all Char.isDigit = true) := by
  refine ⟨by decide, fun c hc => ?_, fun t hy1 hy2 hmo hd hh hmi hs => ?_⟩
  · rw [show (generate_structured_notes "T" "" (some c) ""
        ⟨⟨2025, 10, 12, 13, 14, 15⟩, some "x", true⟩).third =
        (if c ≠ "" then sanitizeTitle c
         else "AI_Notes_" ++ strftimeCompact ⟨2025, 10, 12, 13, 14, 15⟩) from rfl,
      if_pos hc]
  · refine ⟨pad4 t.year ++ pad2 t.month ++ pad2 t.day,
      pad2 t.hour ++ pad2 t.minute ++ pad2 t.second, ?_, ?_, ?_, ?_, ?_⟩
    · rw [show (generate_structured_notes "T" "" none "" ⟨t, some "x", true⟩).third =
          "AI_Notes_" ++ strftimeCompact t from rfl]
      unfold strftimeCompact
      simp [String.append_assoc]
    · rw [strLengthAppend, strLengthAppend, (pad4_spec t.year hy1 hy2).1,
        (pad2_spec t.month hmo).1, (pad2_spec t.day hd).1]
    · rw [strLengthAppend, strLengthAppend, (pad2_spec t.hour hh).1,
        (pad2_spec t.minute hmi).1, (pad2_spec t.second hs).1]
    · rw [strAllAppend, strAllAppend, (pad4_spec t.year hy1 hy2).2,
        (pad2_spec t.month hmo).2, (pad2_spec t.day hd).2]
      rfl
    · rw [strAllAppend, strAllAppend, (pad2_spec t.hour hh).2,
        (pad2_spec t.minute hmi).2, (pad2_spec t.second hs).2]
      rfl

/-- Witness for C6 amended at concrete inputs. -/
theorem C6_title_amended_witness :
    (generate_structured_notes "T" "" (some "Weekly Sync") ""
        ⟨⟨2025, 10, 12, 13, 14, 15⟩, some "x", true⟩).third = sanitizeTitle "Weekly Sync" ∧
    ∃ d tm : String,
      (generate_structured_notes "T" "" none ""
          ⟨⟨2025, 10, 12, 13, 14, 15⟩, some "x", true⟩).third =
        "AI_Notes_" ++ d ++ "_" ++ tm ∧
      d.length = 8 ∧ tm.length = 6 ∧
      d.data.all Char.isDigit = true ∧ tm.data.all Char.isDigit = true :=
  ⟨C6_title_amended.2.1 "Weekly Sync" (by decide),
   C6_title_amended.2.2 ⟨2025, 10, 12, 13, 14, 15⟩ (by decide) (by decide) (by decide)
     (by decide) (by decide) (by decide) (by decide)⟩

end Transcripto
